import Mathlib

/-!
Shallow embedding of the in-memory gadget-tree model of `src/usbg.c` (libusbg).

The C linked lists (`sys/queue.h` TAILQ) are modelled in two ways:

* the tree-loader functions only ever use `TAILQ_INSERT_TAIL`, so there the
  collections are plain Lean lists and an insertion is an append;
* the mutation-side macro `INSERT_TAILQ_STRING_ORDER` performs pointer surgery
  (including `TAILQ_INSERT_BEFORE` inside a `TAILQ_FOREACH` with no `break`),
  so it is modelled by an explicit pointer machine over node ids, and its
  observable effect on a collection is recovered by walking the forward chain.

Filesystem, `malloc` and `readlink` outcomes are supplied as explicit
environment values; every mutating operation additionally reports the list of
filesystem mutations it attempted and its allocation/free counts, so that
"before any filesystem work" and "releases the allocated node" become
checkable statements.
-/

namespace Usbg

/-! ## Error codes and errno (`usbg.h`, `usbg_translate_error`) -/

/-- Modelled from the spec: the closed error taxonomy of spec section 7 is
realised by the library header `usbg.h`, which is not under `src/`; there the
codes are negative `int` values with `USBG_SUCCESS = 0`.  The numeric values
below follow that header.  `USBG_ERROR_IOERR` renders the C name
`USBG_ERROR_IO`. -/
def USBG_SUCCESS : Int := 0

def USBG_ERROR_NO_MEM : Int := -1

def USBG_ERROR_NO_ACCESS : Int := -2

def USBG_ERROR_INVALID_PARAM : Int := -3

def USBG_ERROR_NOT_FOUND : Int := -4

def USBG_ERROR_IOERR : Int := -5

def USBG_ERROR_OTHER_ERROR : Int := -99

/-- Platform `errno` values distinguished by `usbg_translate_error`
(`ENOMEM`, `EACCES`, `ENOENT`, `ENOTDIR`, `EINVAL`, `EIO`); `eioerr` stands
for `EIO` and `eother` for every errno hitting the `default:` branch. -/
inductive CErrno where
  | enomem
  | eacces
  | enoent
  | enotdir
  | einval
  | eioerr
  | eother
  deriving DecidableEq, Repr, Inhabited

/-- Embeds `usbg_translate_error` (usbg.c:136).  The C switch also maps the
code `USBG_ERROR_INVALID_PARAM` itself to `USBG_ERROR_INVALID_PARAM`,
together with `EINVAL`; callers in this file only ever pass errno values. -/
def usbg_translate_error : CErrno → Int
  | .enomem => USBG_ERROR_NO_MEM
  | .eacces => USBG_ERROR_NO_ACCESS
  | .enoent => USBG_ERROR_NOT_FOUND
  | .enotdir => USBG_ERROR_NOT_FOUND
  | .einval => USBG_ERROR_INVALID_PARAM
  | .eioerr => USBG_ERROR_IOERR
  | .eother => USBG_ERROR_OTHER_ERROR

/-- Closed taxonomy test: a value is a classified error code. -/
def isClassifiedError (r : Int) : Prop :=
  r = USBG_ERROR_NO_MEM ∨ r = USBG_ERROR_NO_ACCESS ∨ r = USBG_ERROR_INVALID_PARAM ∨
    r = USBG_ERROR_NOT_FOUND ∨ r = USBG_ERROR_IOERR ∨ r = USBG_ERROR_OTHER_ERROR

instance (r : Int) : Decidable (isClassifiedError r) := by
  unfold isClassifiedError; infer_instance

/-! ## String helpers (`strcmp`, `strtok`, `strrchr`) -/

/-- Character-wise comparison; for the ASCII names used here it coincides
with C's byte-wise comparison. -/
def strcmpL : List Char → List Char → Int
  | [], [] => 0
  | [], _ :: _ => -1
  | _ :: _, [] => 1
  | a :: as, b :: bs =>
    if a.toNat < b.toNat then -1
    else if b.toNat < a.toNat then 1
    else strcmpL as bs

/-- Sign of C `strcmp` on the two strings. -/
def strcmp (a b : String) : Int :=
  strcmpL a.data b.data

/-- First token of `strtok(s, ".")`: leading dots are skipped, the token runs
to the next dot; an empty or all-dot string yields `NULL`. -/
def strtok_first (s : String) : Option String :=
  let t := s.data.dropWhile (fun c => c = '.')
  if t.isEmpty then none else some (String.mk (t.takeWhile (fun c => c ≠ '.')))

/-- Embeds the `function_names` table (usbg.c:93): name strings for the
supported USB function types, indexed by the `usbg_function_type` tag. -/
def function_names : List String :=
  ["gser", "acm", "obex", "ecm", "geth", "ncm", "eem", "rndis", "phonet"]

/-- Scan of `usbg_lookup_function_type` (usbg.c:165): position of the first
matching name, `-1` for a `NULL` argument or no match. -/
def lookupNameIdx (n : String) : List String → Int
  | [] => -1
  | s :: rest =>
    if s = n then 0
    else
      let r := lookupNameIdx n rest
      if r < 0 then -1 else r + 1

/-- Embeds `usbg_lookup_function_type` (usbg.c:165). -/
def usbg_lookup_function_type (name : Option String) : Int :=
  match name with
  | none => -1
  | some n => lookupNameIdx n function_names

/-- Last path segment, `strrchr(target, '/') + 1` (usbg.c:487).  A target
with no slash would make the C dereference `NULL + 1` (undefined); the model
returns the whole string in that case and is only applied to slash-containing
link targets. -/
def afterLastSlash (s : String) : String :=
  ((s.splitOn "/").getLast?).getD s

/-! ## Attribute codec reads (`usbg_read_buf`, `usbg_read_string`) -/

/-- Modelled from the spec: buffer ceilings live in `usbg.h`, which is not
under `src/`; spec section 9 records the fixed-size text buffers.  The header
value is 256. -/
def USBG_MAX_STR_LENGTH : Nat := 256

/-- Characters delivered by `fgets` with buffer size `n + 1`: at most `n`
characters, stopping after the first newline. -/
def takeLineL (n : Nat) : List Char → List Char
  | [] => []
  | c :: rest =>
    match n with
    | 0 => []
    | n + 1 => if c = '\n' then [c] else c :: takeLineL n rest

/-- Embeds the `fgets(buf, USBG_MAX_STR_LENGTH, fp)` call of `usbg_read_buf`:
`none` models the NULL return (empty file / read error), otherwise one line. -/
def fgets_model (content : String) : Option String :=
  if content.isEmpty then none
  else some (String.mk (takeLineL (USBG_MAX_STR_LENGTH - 1) content.data))

/-- Characters of `buf` after `usbg_read_string` plants `'\0'` at the first
newline (`strchr(buf, '\n')`, usbg.c:254). -/
def dropFromNL : List Char → List Char
  | [] => []
  | c :: rest => if c = '\n' then [] else c :: dropFromNL rest

/-- Embeds `usbg_read_buf` (usbg.c:201).  The input is the outcome of
`fopen`: an errno, or the file's text.  The second component is the
destination buffer, `none` while its contents are indeterminate (the C code
leaves `buf` untouched on `fopen` failure and on `fgets` failure). -/
def usbg_read_buf (file : Except CErrno String) : Int × Option String :=
  match file with
  | .error e => (usbg_translate_error e, none)
  | .ok content =>
    match fgets_model content with
    | none => (USBG_ERROR_IOERR, none)
    | some line => (USBG_SUCCESS, some line)

/-- Embeds `usbg_read_string` (usbg.c:246): on success the buffer is cut at
its first newline; on any failure the buffer is set to the empty string. -/
def usbg_read_string (file : Except CErrno String) : Int × String :=
  let rb := usbg_read_buf file
  if rb.1 = USBG_SUCCESS then
    (rb.1, String.mk (dropFromNL ((rb.2.getD "").data)))
  else
    (rb.1, "")

/-! ## The TAILQ pointer machine

`sys/queue.h` tail queues: every element carries a forward pointer
(`tqe_next`) and a pointer to the location holding the pointer to itself
(`tqe_prev`); the head holds `tqh_first` and `tqh_last`.  Nodes are numbered
by allocation order; a "pointer to a next-slot" is either the head's first
slot or the next slot of a node. -/

/-- Address of a slot holding an `Option Nat` forward pointer. -/
inductive Slot where
  | headFirst
  | nodeNext (i : Nat)
  deriving DecidableEq, Repr, Inhabited

/-- A tail queue state over payloads `β`: `payloads i` is node `i`'s record,
`nexts i` its `tqe_next`, `prevs i` its `tqe_prev`, `first` is `tqh_first`
and `lastp` is `tqh_last`. -/
structure TQ (β : Type) where
  payloads : List β
  nexts : List (Option Nat)
  prevs : List Slot
  first : Option Nat
  lastp : Slot
  deriving DecidableEq, Repr

def TQ.empty {β : Type} : TQ β := ⟨[], [], [], none, .headFirst⟩

def TQ.readSlot {β : Type} (s : TQ β) : Slot → Option Nat
  | .headFirst => s.first
  | .nodeNext i => s.nexts.getD i none

def TQ.writeSlot {β : Type} (s : TQ β) (p : Slot) (v : Option Nat) : TQ β :=
  match p with
  | .headFirst => { s with first := v }
  | .nodeNext i => { s with nexts := s.nexts.set i v }

def TQ.next {β : Type} (s : TQ β) (i : Nat) : Option Nat := s.nexts.getD i none

def TQ.prev {β : Type} (s : TQ β) (i : Nat) : Slot := s.prevs.getD i .headFirst

def TQ.setNext {β : Type} (s : TQ β) (i : Nat) (v : Option Nat) : TQ β :=
  { s with nexts := s.nexts.set i v }

def TQ.setPrev {β : Type} (s : TQ β) (i : Nat) (p : Slot) : TQ β :=
  { s with prevs := s.prevs.set i p }

def TQ.payload {β : Type} [Inhabited β] (s : TQ β) (i : Nat) : β :=
  s.payloads.getD i default

/-- `TAILQ_LAST`: `tqh_last` points at the last element's next slot; the
macro reads back through that element's `tqe_prev` (the overlaid-head trick),
and through `tqh_first` when the queue is empty. -/
def TQ.last {β : Type} (s : TQ β) : Option Nat :=
  match s.lastp with
  | .headFirst => s.first
  | .nodeNext i => s.readSlot (s.prev i)

/-- `TAILQ_INSERT_HEAD(head, elm, field)`. -/
def TQ.insertHead {β : Type} (s : TQ β) (e : Nat) : TQ β :=
  let s1 := s.setNext e s.first
  let s2 :=
    match s1.first with
    | some h => s1.setPrev h (.nodeNext e)
    | none => { s1 with lastp := .nodeNext e }
  let s3 := { s2 with first := some e }
  s3.setPrev e .headFirst

/-- `TAILQ_INSERT_TAIL(head, elm, field)`. -/
def TQ.insertTail {β : Type} (s : TQ β) (e : Nat) : TQ β :=
  let s1 := s.setNext e none
  let s2 := s1.setPrev e s1.lastp
  let s3 := s2.writeSlot s2.lastp (some e)
  { s3 with lastp := .nodeNext e }

/-- `TAILQ_INSERT_BEFORE(listelm, elm, field)`. -/
def TQ.insertBefore {β : Type} (s : TQ β) (listelm e : Nat) : TQ β :=
  let s1 := s.setPrev e (s.prev listelm)
  let s2 := s1.setNext e (some listelm)
  let s3 := s2.writeSlot (s2.prev listelm) (some e)
  s3.setPrev listelm (.nodeNext e)

/-- Allocates a fresh node carrying `x`; its link slots start out with junk
(all macro paths store into both slots before reading them). -/
def TQ.alloc {β : Type} (s : TQ β) (x : β) : TQ β × Nat :=
  (⟨s.payloads ++ [x], s.nexts ++ [none], s.prevs ++ [.headFirst], s.first, s.lastp⟩,
    s.payloads.length)

/-- The `TAILQ_FOREACH` of `INSERT_TAILQ_STRING_ORDER` (usbg.c:128): skip
while the new name sorts after the cursor, otherwise `TAILQ_INSERT_BEFORE`
the cursor — and, the macro having no `break`, keep iterating.  Fuel bounds
the chain walk. -/
def insertStringOrderLoop {β : Type} [Inhabited β] (nm : β → String) (e : Nat) :
    TQ β → Option Nat → Nat → TQ β
  | s, _, 0 => s
  | s, none, _ => s
  | s, some cur, fuel + 1 =>
    if strcmp (nm (s.payload e)) (nm (s.payload cur)) > 0 then
      insertStringOrderLoop nm e s (s.next cur) fuel
    else
      let s' := s.insertBefore cur e
      insertStringOrderLoop nm e s' (s'.next cur) fuel

/-- Embeds `INSERT_TAILQ_STRING_ORDER` (usbg.c:119): head insert on an empty
queue or when the new name sorts before the first, tail insert when it sorts
after the last, otherwise the foreach scan above. -/
def INSERT_TAILQ_STRING_ORDER {β : Type} [Inhabited β] (nm : β → String)
    (s : TQ β) (e : Nat) : TQ β :=
  match s.first with
  | none => s.insertHead e
  | some h =>
    if strcmp (nm (s.payload e)) (nm (s.payload h)) < 0 then
      s.insertHead e
    else if strcmp (nm (s.payload e)) (nm (s.payload (s.last.getD 0))) > 0 then
      s.insertTail e
    else
      insertStringOrderLoop nm e s s.first (s.payloads.length + 1)

/-- Walks the forward chain from a slot value, fuel-bounded. -/
def TQ.chainFrom {β : Type} (s : TQ β) : Option Nat → Nat → List Nat
  | _, 0 => []
  | none, _ => []
  | some i, fuel + 1 => i :: s.chainFrom (s.next i) fuel

/-- The collection as observed by `TAILQ_FOREACH` from the head. -/
def TQ.toList {β : Type} [Inhabited β] (s : TQ β) : List β :=
  (s.chainFrom s.first (s.payloads.length + 1)).map s.payload

/-- Rebuilds a queue from a list by successive `TAILQ_INSERT_TAIL`. -/
def tqOfList {β : Type} (l : List β) : TQ β :=
  l.foldl (fun s x => let a := s.alloc x; a.1.insertTail a.2) TQ.empty

/-- Observable effect of `INSERT_TAILQ_STRING_ORDER` on a collection viewed
as its forward chain: materialise the chain as a queue, allocate the new
node, run the macro, read the chain back. -/
def insertStringOrder {β : Type} [Inhabited β] (nm : β → String) (x : β)
    (l : List β) : List β :=
  let a := (tqOfList l).alloc x
  (INSERT_TAILQ_STRING_ORDER nm a.1 a.2).toList

example : insertStringOrder (fun s => s) "a" [] = ["a"] := by decide
example : insertStringOrder (fun s => s) "b" ["a"] = ["a", "b"] := by decide
example : insertStringOrder (fun s => s) "a" ["b"] = ["a", "b"] := by decide
example : insertStringOrder (fun s => s) "b" ["a", "c"] = ["a", "b", "c"] := by decide
example : insertStringOrder (fun s => s) "b" ["a", "c", "d"] = ["a", "b", "d"] := by decide

/-! ## Tree node types (usbg.c:39-87)

C pointers to sibling nodes are rendered as indices into the owning list; a
`Binding`'s non-owning `target` pointer is the index of the target in the
owning gadget's function list (`none` for a `NULL`, i.e. unresolved,
target).  Parent back-pointers are implicit in the nesting. -/

/-- Embeds `struct usbg_function`: `name`, the functions-directory `path`,
and the `usbg_function_type` tag (an `int`; `-1` when unrecognized). -/
structure usbg_function where
  name : String
  path : String
  type : Int
  deriving DecidableEq, Repr, Inhabited

/-- Embeds `struct usbg_binding`: `name`, its `path`, and the non-owning
`target` pointer. -/
structure usbg_binding where
  name : String
  path : String
  target : Option Nat
  deriving DecidableEq, Repr, Inhabited

/-- Embeds `struct usbg_config`: `name`, the configs-directory `path`, and
the owned binding queue. -/
structure usbg_config where
  name : String
  path : String
  bindings : List usbg_binding
  deriving DecidableEq, Repr, Inhabited

/-- Embeds `struct usbg_gadget`: `name`, the store-root `path`, the `udc`
controller field, and the two owned queues. -/
structure usbg_gadget where
  name : String
  path : String
  udc : String
  functions : List usbg_function
  configs : List usbg_config
  deriving DecidableEq, Repr, Inhabited

/-- Embeds `struct usbg_state`: the store root path and the owned gadgets. -/
structure usbg_state where
  path : String
  gadgets : List usbg_gadget
  deriving DecidableEq, Repr, Inhabited

/-! ## Lookup by name (usbg.c:749-802)

Each getter is a `TAILQ_FOREACH` returning the first match or `NULL`; here
the returned pointer is the index of the first match. -/

/-- Embeds `usbg_get_gadget` (usbg.c:749). -/
def usbg_get_gadget (s : usbg_state) (name : String) : Option Nat :=
  s.gadgets.findIdx? (fun g => g.name = name)

/-- Embeds `usbg_get_function` (usbg.c:760). -/
def usbg_get_function (g : usbg_gadget) (name : String) : Option Nat :=
  g.functions.findIdx? (fun f => f.name = name)

/-- Embeds `usbg_get_config` (usbg.c:771). -/
def usbg_get_config (g : usbg_gadget) (name : String) : Option Nat :=
  g.configs.findIdx? (fun c => c.name = name)

/-- Embeds `usbg_get_binding` (usbg.c:782). -/
def usbg_get_binding (c : usbg_config) (name : String) : Option Nat :=
  c.bindings.findIdx? (fun b => b.name = name)

/-- Embeds `usbg_get_link_binding` (usbg.c:793): first binding whose target
pointer equals `f` (pointer equality becomes index equality). -/
def usbg_get_link_binding (c : usbg_config) (f : Nat) : Option Nat :=
  c.bindings.findIdx? (fun b => b.target = some f)

/-! ## Tree loader (usbg.c:394-701)

Every `scandir` result is an input: an errno (scan failed) or the sorted
entry list.  Each entry also carries the outcome of the per-entry `malloc`
and, for bindings, of the per-entry `readlink`, so that the error paths of
the C loops are reachable in the model.  The loaders only ever insert with
`TAILQ_INSERT_TAIL`, i.e. append. -/

def FUNCTIONS_DIR : String := "functions"

def CONFIGS_DIR : String := "configs"

def STRINGS_DIR : String := "strings"

/-- A functions-directory entry as consumed by `usbg_parse_functions`. -/
structure FEntry where
  d_name : String
  mallocOk : Bool
  deriving DecidableEq, Repr, Inhabited

/-- Loop body of `usbg_parse_functions` (usbg.c:407-422): once `ret` is no
longer `USBG_SUCCESS`, later entries are only freed, not constructed.  The
full entry name is copied into `f->name` before `strtok` splits the (scratch)
entry name at its first dot for the type lookup. -/
def usbg_parse_functions_loop (fpath : String) :
    usbg_gadget → Int → List FEntry → usbg_gadget × Int
  | g, ret, [] => (g, ret)
  | g, ret, e :: rest =>
    if ret = USBG_SUCCESS then
      if e.mallocOk then
        let f : usbg_function :=
          { name := e.d_name
            path := fpath
            type := usbg_lookup_function_type (strtok_first e.d_name) }
        usbg_parse_functions_loop fpath { g with functions := g.functions ++ [f] } ret rest
      else
        usbg_parse_functions_loop fpath g USBG_ERROR_NO_MEM rest
    else
      usbg_parse_functions_loop fpath g ret rest

/-- Embeds `usbg_parse_functions` (usbg.c:394). -/
def usbg_parse_functions (g : usbg_gadget) (scan : Except CErrno (List FEntry)) :
    usbg_gadget × Int :=
  let fpath := g.path ++ "/" ++ g.name ++ "/" ++ FUNCTIONS_DIR
  match scan with
  | .error e => (g, usbg_translate_error e)
  | .ok entries => usbg_parse_functions_loop fpath g USBG_SUCCESS entries

instance {ε α : Type} [DecidableEq ε] [DecidableEq α] : DecidableEq (Except ε α)
  | .error a, .error b =>
    if h : a = b then .isTrue (by rw [h]) else .isFalse (by intro hc; cases hc; exact h rfl)
  | .error _, .ok _ => .isFalse (by intro hc; cases hc)
  | .ok _, .error _ => .isFalse (by intro hc; cases hc)
  | .ok a, .ok b =>
    if h : a = b then .isTrue (by rw [h]) else .isFalse (by intro hc; cases hc; exact h rfl)

/-- A symlink entry of a config directory as consumed by
`usbg_parse_config_bindings`, with its `readlink` outcome. -/
structure BEntry where
  d_name : String
  readlinkRes : Except CErrno String
  mallocOk : Bool
  deriving DecidableEq, Repr, Inhabited

/-- Loop body of `usbg_parse_config_bindings` (usbg.c:478-506).  This loop
has no success guard: every entry is processed; a failed entry only
overwrites `ret`, so the returned status is the last failure.  A link target
whose last segment names no function yields a binding with `target = none`
and leaves `ret` alone. -/
def usbg_parse_config_bindings_loop (g : usbg_gadget) (bpath : String) :
    usbg_config → Int → List BEntry → usbg_config × Int
  | c, ret, [] => (c, ret)
  | c, ret, e :: rest =>
    match e.readlinkRes with
    | .ok target =>
      let target_name := afterLastSlash target
      let f := usbg_get_function g target_name
      if e.mallocOk then
        usbg_parse_config_bindings_loop g bpath
          { c with bindings := c.bindings ++ [{ name := e.d_name, path := bpath, target := f }] }
          ret rest
      else
        usbg_parse_config_bindings_loop g bpath c USBG_ERROR_NO_MEM rest
    | .error er =>
      usbg_parse_config_bindings_loop g bpath c (usbg_translate_error er) rest

/-- Embeds `usbg_parse_config_bindings` (usbg.c:461); `g` is `c->parent`. -/
def usbg_parse_config_bindings (g : usbg_gadget) (c : usbg_config)
    (scan : Except CErrno (List BEntry)) : usbg_config × Int :=
  let bpath := c.path ++ "/" ++ c.name
  match scan with
  | .error e => (c, usbg_translate_error e)
  | .ok entries => usbg_parse_config_bindings_loop g bpath c USBG_SUCCESS entries

/-- A configs-directory entry as consumed by `usbg_parse_configs`, carrying
the nested scan of its binding symlinks. -/
structure CEntry where
  d_name : String
  mallocOk : Bool
  bindingsScan : Except CErrno (List BEntry)
  deriving DecidableEq, Repr, Inhabited

/-- Loop body of `usbg_parse_configs` (usbg.c:527-545): guarded by
`ret == USBG_SUCCESS`, so after the first failure later entries are only
freed; a config whose own bindings parse fails is freed, not inserted. -/
def usbg_parse_configs_loop (cpath : String) :
    usbg_gadget → Int → List CEntry → usbg_gadget × Int
  | g, ret, [] => (g, ret)
  | g, ret, e :: rest =>
    if ret = USBG_SUCCESS then
      if e.mallocOk then
        let pr := usbg_parse_config_bindings g
          { name := e.d_name, path := cpath, bindings := [] } e.bindingsScan
        if pr.2 = USBG_SUCCESS then
          usbg_parse_configs_loop cpath { g with configs := g.configs ++ [pr.1] } pr.2 rest
        else
          usbg_parse_configs_loop cpath g pr.2 rest
      else
        usbg_parse_configs_loop cpath g USBG_ERROR_NO_MEM rest
    else
      usbg_parse_configs_loop cpath g ret rest

/-- Embeds `usbg_parse_configs` (usbg.c:515). -/
def usbg_parse_configs (g : usbg_gadget) (scan : Except CErrno (List CEntry)) :
    usbg_gadget × Int :=
  let cpath := g.path ++ "/" ++ g.name ++ "/" ++ CONFIGS_DIR
  match scan with
  | .error e => (g, usbg_translate_error e)
  | .ok entries => usbg_parse_configs_loop cpath g USBG_SUCCESS entries

/-- A root-directory entry as consumed by `usbg_parse_gadgets`: a candidate
gadget name with the per-gadget inputs of `usbg_parse_gadget`. -/
structure GEntry where
  d_name : String
  mallocOk : Bool
  udcFile : Except CErrno String
  funcScan : Except CErrno (List FEntry)
  cfgScan : Except CErrno (List CEntry)
  deriving DecidableEq, Repr, Inhabited

/-- Embeds `usbg_parse_gadget` (usbg.c:629): copy name and path, read the
UDC field, then parse functions, then configs, stopping at the first
failure. -/
def usbg_parse_gadget (path : String) (e : GEntry) : usbg_gadget × Int :=
  let rs := usbg_read_string e.udcFile
  let g0 : usbg_gadget :=
    { name := e.d_name, path := path, udc := rs.2, functions := [], configs := [] }
  if rs.1 ≠ USBG_SUCCESS then (g0, rs.1)
  else
    let pf := usbg_parse_functions g0 e.funcScan
    if pf.2 ≠ USBG_SUCCESS then (pf.1, pf.2)
    else usbg_parse_configs pf.1 e.cfgScan

/-- Loop body of `usbg_parse_gadgets` (usbg.c:663-680): guarded by
`ret == USBG_SUCCESS`; a gadget whose own parse fails is freed, not
inserted. -/
def usbg_parse_gadgets_loop (path : String) :
    usbg_state → Int → List GEntry → usbg_state × Int
  | s, ret, [] => (s, ret)
  | s, ret, e :: rest =>
    if ret = USBG_SUCCESS then
      if e.mallocOk then
        let pg := usbg_parse_gadget path e
        if pg.2 = USBG_SUCCESS then
          usbg_parse_gadgets_loop path { s with gadgets := s.gadgets ++ [pg.1] } pg.2 rest
        else
          usbg_parse_gadgets_loop path s pg.2 rest
      else
        usbg_parse_gadgets_loop path s USBG_ERROR_NO_MEM rest
    else
      usbg_parse_gadgets_loop path s ret rest

/-- Embeds `usbg_parse_gadgets` (usbg.c:654). -/
def usbg_parse_gadgets (s : usbg_state) (scan : Except CErrno (List GEntry)) :
    usbg_state × Int :=
  match scan with
  | .error e => (s, usbg_translate_error e)
  | .ok entries => usbg_parse_gadgets_loop s.path s USBG_SUCCESS entries

/-! ## Tree mutator (usbg.c:804-1260)

Each creation operation runs against an environment fixing the outcomes of
its `malloc`, `mkdir` and `symlink` calls, and reports, besides its return
value and the updated owning collection, the ordered list of filesystem
mutations it attempted and how many nodes it allocated and freed. -/

/-- A filesystem mutation attempted by a creation operation.  `writeOp`
records the `(path, name, file)` triple of `usbg_write_buf`, value elided. -/
inductive FsOp where
  | mkdirOp (path : String)
  | symlinkOp (target path : String)
  | writeOp (path name file : String)
  deriving DecidableEq, Repr, Inhabited

/-- Outcomes of the external calls a creation operation may make. -/
structure MutEnv where
  mallocOk : Bool := true
  mkdirOk : Bool := true
  symlinkOk : Bool := true
  udcFile : Except CErrno String := .ok "\n"
  deriving Repr, Inhabited

/-- Result of a mutation: return value, updated owning collection,
attempted filesystem mutations in order, allocation and free counts. -/
structure MutOut (σ ρ : Type) where
  res : ρ
  coll : σ
  fsOps : List FsOp
  allocs : Nat
  frees : Nat
  deriving DecidableEq, Repr

/-- Hexadecimal rendering of `sprintf("0x%x", lang)`. -/
def hexStr (n : Nat) : String :=
  "0x" ++ String.mk (Nat.toDigits 16 n)

/-- `LANG_US_ENG` of `usbg.h` (modelled from the spec, section 6: language
directories are `0x<lang>`, example language `0x409`). -/
def LANG_US_ENG : Nat := 0x409

/-- Writes of `usbg_set_gadget_attrs` (usbg.c:927): eight hex fields. -/
def usbg_set_gadget_attrs_ops (path name : String) : List FsOp :=
  [FsOp.writeOp path name "bcdUSB",
   FsOp.writeOp path name "bDeviceClass",
   FsOp.writeOp path name "bDeviceSubClass",
   FsOp.writeOp path name "bDeviceProtocol",
   FsOp.writeOp path name "bMaxPacketSize0",
   FsOp.writeOp path name "idVendor",
   FsOp.writeOp path name "idProduct",
   FsOp.writeOp path name "bcdDevice"]

/-- Operations of `usbg_set_gadget_strs` (usbg.c:993): create the language
directory, then write the three string fields. -/
def usbg_set_gadget_strs_ops (gpath gname : String) : List FsOp :=
  let spath := gpath ++ "/" ++ gname ++ "/" ++ STRINGS_DIR ++ "/" ++ hexStr LANG_US_ENG
  [FsOp.mkdirOp spath,
   FsOp.writeOp spath "" "serialnumber",
   FsOp.writeOp spath "" "manufacturer",
   FsOp.writeOp spath "" "product"]

/-- Function type tags of `usbg.h` (modelled from the spec: the header is
not under `src/`; the tag order is pinned by the `function_names` table that
`usbg_create_function` indexes with the tag). -/
def F_SERIAL : Int := 0

def F_ACM : Int := 1

def F_OBEX : Int := 2

def F_ECM : Int := 3

def F_SUBSET : Int := 4

def F_NCM : Int := 5

def F_EEM : Int := 6

def F_RNDIS : Int := 7

def F_PHONET : Int := 8

/-- Writes of `usbg_set_function_attrs` (usbg.c:1329), dispatched on the
function's type tag; an unsupported tag only logs. -/
def usbg_set_function_attrs_ops (f : usbg_function) : List FsOp :=
  if f.type = F_SERIAL ∨ f.type = F_ACM ∨ f.type = F_OBEX then
    [FsOp.writeOp f.path f.name "port_num"]
  else if f.type = F_ECM ∨ f.type = F_SUBSET ∨ f.type = F_NCM ∨ f.type = F_EEM ∨
      f.type = F_RNDIS then
    [FsOp.writeOp f.path f.name "dev_addr",
     FsOp.writeOp f.path f.name "host_addr",
     FsOp.writeOp f.path f.name "ifname",
     FsOp.writeOp f.path f.name "qmult"]
  else if f.type = F_PHONET then
    [FsOp.writeOp f.path f.name "ifname"]
  else
    []

/-- Writes of `usbg_set_config_attrs` (usbg.c:1157): decimal `MaxPower`,
hex `bmAttributes`. -/
def usbg_set_config_attrs_ops (cpath cname : String) : List FsOp :=
  [FsOp.writeOp cpath cname "MaxPower", FsOp.writeOp cpath cname "bmAttributes"]

/-- Operations of `usbg_set_config_string` (usbg.c:1204): create the
language directory, then write `configuration`. -/
def usbg_set_config_string_ops (cpath cname : String) : List FsOp :=
  let spath := cpath ++ "/" ++ cname ++ "/" ++ STRINGS_DIR ++ "/" ++ hexStr LANG_US_ENG
  [FsOp.mkdirOp spath, FsOp.writeOp spath "" "configuration"]

/-- Embeds `usbg_create_empty_gadget` (usbg.c:804): allocate and initialise
the node, `mkdir` the gadget directory — freeing the node and returning
`NULL` on failure — then read back the `UDC` field. -/
def usbg_create_empty_gadget (s : usbg_state) (name : String) (env : MutEnv) :
    MutOut Unit (Option usbg_gadget) :=
  let gpath := s.path ++ "/" ++ name
  if ¬env.mallocOk then
    { res := none, coll := (), fsOps := [], allocs := 0, frees := 0 }
  else if ¬env.mkdirOk then
    { res := none, coll := (), fsOps := [FsOp.mkdirOp gpath], allocs := 1, frees := 1 }
  else
    let g : usbg_gadget :=
      { name := name, path := s.path, udc := (usbg_read_string env.udcFile).2,
        functions := [], configs := [] }
    { res := some g, coll := (), fsOps := [FsOp.mkdirOp gpath], allocs := 1, frees := 0 }

/-- Embeds `usbg_create_gadget` (usbg.c:866): `NULL` state check, duplicate
name check before any filesystem work, creation of the empty gadget, the
optional attribute and string writes, and the ordered insert.  The attrs and
strs payloads are only tested against `NULL` by the creation path, so they
are passed as presence flags. -/
def usbg_create_gadget (s : Option usbg_state) (name : String)
    (hasAttrs hasStrs : Bool) (env : MutEnv) :
    MutOut (Option usbg_state) (Option usbg_gadget) :=
  match s with
  | none => { res := none, coll := none, fsOps := [], allocs := 0, frees := 0 }
  | some s =>
    if (usbg_get_gadget s name).isSome then
      { res := none, coll := some s, fsOps := [], allocs := 0, frees := 0 }
    else
      let eg := usbg_create_empty_gadget s name env
      match eg.res with
      | none =>
        { res := none, coll := some s, fsOps := eg.fsOps,
          allocs := eg.allocs, frees := eg.frees }
      | some g =>
        let aw := if hasAttrs then usbg_set_gadget_attrs_ops s.path name else []
        let sw := if hasStrs then usbg_set_gadget_strs_ops g.path g.name else []
        { res := some g
          coll := some { s with gadgets := insertStringOrder (fun x => x.name) g s.gadgets }
          fsOps := eg.fsOps ++ aw ++ sw
          allocs := eg.allocs, frees := eg.frees }

/-- Embeds `usbg_create_function` (usbg.c:1040): synthesize the on-disk name
`"<type-name>.<instance>"`, reject a duplicate of that name before any
filesystem work, allocate, `mkdir` (freeing the node and returning `NULL` on
failure), apply the optional attribute writes, and insert in string order. -/
def usbg_create_function (g : Option usbg_gadget) (type : Nat) (inst : String)
    (hasAttrs : Bool) (env : MutEnv) :
    MutOut (Option usbg_gadget) (Option usbg_function) :=
  match g with
  | none => { res := none, coll := none, fsOps := [], allocs := 0, frees := 0 }
  | some g =>
    let name := function_names.getD type "" ++ "." ++ inst
    if (usbg_get_function g name).isSome then
      { res := none, coll := some g, fsOps := [], allocs := 0, frees := 0 }
    else
      let fdir := g.path ++ "/" ++ g.name ++ "/" ++ FUNCTIONS_DIR
      let fpath := fdir ++ "/" ++ name
      if ¬env.mallocOk then
        { res := none, coll := some g, fsOps := [], allocs := 0, frees := 0 }
      else
        let f : usbg_function := { name := name, path := fdir, type := (type : Int) }
        if ¬env.mkdirOk then
          { res := none, coll := some g, fsOps := [FsOp.mkdirOp fpath],
            allocs := 1, frees := 1 }
        else
          let aw := if hasAttrs then usbg_set_function_attrs_ops f else []
          { res := some f
            coll := some { g with functions := insertStringOrder (fun x => x.name) f g.functions }
            fsOps := FsOp.mkdirOp fpath :: aw
            allocs := 1, frees := 0 }

/-- Embeds `usbg_create_config` (usbg.c:1088): duplicate name check before
any filesystem work, allocate, `mkdir` (freeing the node and returning
`NULL` on failure), optional attribute/string writes, ordered insert. -/
def usbg_create_config (g : Option usbg_gadget) (name : String)
    (hasAttrs hasStrs : Bool) (env : MutEnv) :
    MutOut (Option usbg_gadget) (Option usbg_config) :=
  match g with
  | none => { res := none, coll := none, fsOps := [], allocs := 0, frees := 0 }
  | some g =>
    if (usbg_get_config g name).isSome then
      { res := none, coll := some g, fsOps := [], allocs := 0, frees := 0 }
    else
      let cdir := g.path ++ "/" ++ g.name ++ "/" ++ CONFIGS_DIR
      let cpath := cdir ++ "/" ++ name
      if ¬env.mallocOk then
        { res := none, coll := some g, fsOps := [], allocs := 0, frees := 0 }
      else
        let c : usbg_config := { name := name, path := cdir, bindings := [] }
        if ¬env.mkdirOk then
          { res := none, coll := some g, fsOps := [FsOp.mkdirOp cpath],
            allocs := 1, frees := 1 }
        else
          let aw := if hasAttrs then usbg_set_config_attrs_ops c.path c.name else []
          let sw := if hasStrs then usbg_set_config_string_ops c.path c.name else []
          { res := some c
            coll := some { g with configs := insertStringOrder (fun x => x.name) c g.configs }
            fsOps := FsOp.mkdirOp cpath :: (aw ++ sw)
            allocs := 1, frees := 0 }

/-- Embeds `usbg_add_config_function` (usbg.c:1215).  The target function
pointer is an index paired with the pointed-to record.  Checks, in order:
`NULL` arguments, duplicate binding name, duplicate link to the same
function — all before any filesystem work.  On `symlink` failure the C code
returns `-1` without freeing the allocated binding node (usbg.c:1246-1250),
which the model renders as `allocs = 1, frees = 0`. -/
def usbg_add_config_function (c : Option usbg_config) (name : String)
    (f : Option (Nat × usbg_function)) (env : MutEnv) :
    MutOut (Option usbg_config) Int :=
  match c, f with
  | none, _ => { res := -1, coll := none, fsOps := [], allocs := 0, frees := 0 }
  | some c, none => { res := -1, coll := some c, fsOps := [], allocs := 0, frees := 0 }
  | some c, some fp =>
    if (usbg_get_binding c name).isSome then
      { res := -1, coll := some c, fsOps := [], allocs := 0, frees := 0 }
    else if (usbg_get_link_binding c fp.1).isSome then
      { res := -1, coll := some c, fsOps := [], allocs := 0, frees := 0 }
    else
      let bpath := c.path ++ "/" ++ c.name ++ "/" ++ name
      let fpath := fp.2.path ++ "/" ++ fp.2.name
      if ¬env.mallocOk then
        { res := -1, coll := some c, fsOps := [], allocs := 0, frees := 0 }
      else if ¬env.symlinkOk then
        { res := -1, coll := some c, fsOps := [FsOp.symlinkOp fpath bpath],
          allocs := 1, frees := 0 }
      else
        let b : usbg_binding := { name := name, path := bpath, target := some fp.1 }
        { res := 0
          coll := some { c with bindings := insertStringOrder (fun x => x.name) b c.bindings }
          fsOps := [FsOp.symlinkOp fpath bpath]
          allocs := 1, frees := 0 }

/-! ## Gadget enable/disable (usbg.c:1282-1307)

The operation is rendered as the final gadget plus the ordered trace of its
observable effects: the in-memory store into `g->udc` and the write of the
backing `UDC` file. -/

/-- One observable effect of enable/disable. -/
inductive GEvent where
  | memUdcSet (v : String)
  | fsUdcWrite (v : String)
  deriving DecidableEq, Repr

/-- Embeds `usbg_enable_gadget` (usbg.c:1282); `udcs` is the
available-controllers enumeration behind `usbg_get_udcs`.  With no explicit
controller and an empty enumeration the call returns early.  The chosen name
is first copied into `g->udc`, then written to the `UDC` file. -/
def usbg_enable_gadget (g : usbg_gadget) (udc : Option String)
    (udcs : List String) : usbg_gadget × List GEvent :=
  match udc with
  | none =>
    match udcs with
    | [] => (g, [])
    | u :: _ =>
      ({ g with udc := u }, [GEvent.memUdcSet u, GEvent.fsUdcWrite u])
  | some u =>
    ({ g with udc := u }, [GEvent.memUdcSet u, GEvent.fsUdcWrite u])

/-- Embeds `usbg_disable_gadget` (usbg.c:1303): store the empty string into
`g->udc`, then write the empty string to the `UDC` file. -/
def usbg_disable_gadget (g : usbg_gadget) : usbg_gadget × List GEvent :=
  ({ g with udc := "" }, [GEvent.memUdcSet "", GEvent.fsUdcWrite ""])

/-! ## Name-length accessors (usbg.c:739, 907, 917, 1137, 1147, 1267)

Each returns `strlen` of the field, or `USBG_ERROR_INVALID_PARAM` for a
`NULL` handle — converted to the unsigned return type `size_t`, here
modelled as 64-bit. -/

/-- Conversion of an `int` value to a 64-bit `size_t`. -/
def size_t_of_int (v : Int) : Nat :=
  (v % (18446744073709551616 : Int)).toNat

/-- Embeds `usbg_get_configfs_path_len` (usbg.c:739). -/
def usbg_get_configfs_path_len (s : Option usbg_state) : Nat :=
  match s with
  | some s => s.path.length
  | none => size_t_of_int USBG_ERROR_INVALID_PARAM

/-- Embeds `usbg_get_gadget_name_len` (usbg.c:907). -/
def usbg_get_gadget_name_len (g : Option usbg_gadget) : Nat :=
  match g with
  | some g => g.name.length
  | none => size_t_of_int USBG_ERROR_INVALID_PARAM

/-- Embeds `usbg_get_gadget_udc_len` (usbg.c:917). -/
def usbg_get_gadget_udc_len (g : Option usbg_gadget) : Nat :=
  match g with
  | some g => g.udc.length
  | none => size_t_of_int USBG_ERROR_INVALID_PARAM

/-- Embeds `usbg_get_config_name_len` (usbg.c:1137). -/
def usbg_get_config_name_len (c : Option usbg_config) : Nat :=
  match c with
  | some c => c.name.length
  | none => size_t_of_int USBG_ERROR_INVALID_PARAM

/-- Embeds `usbg_get_function_name_len` (usbg.c:1147). -/
def usbg_get_function_name_len (f : Option usbg_function) : Nat :=
  match f with
  | some f => f.name.length
  | none => size_t_of_int USBG_ERROR_INVALID_PARAM

/-- Embeds `usbg_get_binding_name_len` (usbg.c:1267). -/
def usbg_get_binding_name_len (b : Option usbg_binding) : Nat :=
  match b with
  | some b => b.name.length
  | none => size_t_of_int USBG_ERROR_INVALID_PARAM

/-! ## Derived forms

Closed-form descriptions of the loader loops, stated independently of the
loop recursions and proved equal to them below. -/

/-- The binding that one symlink entry contributes, if any: `none` exactly
when its `readlink` or `malloc` failed. -/
def bindingOf (g : usbg_gadget) (bpath : String) (e : BEntry) : Option usbg_binding :=
  match e.readlinkRes with
  | .ok t =>
    if e.mallocOk then
      some { name := e.d_name, path := bpath, target := usbg_get_function g (afterLastSlash t) }
    else none
  | .error _ => none

/-- The error code one symlink entry stores into `ret`, if any. -/
def bentryErr (e : BEntry) : Option Int :=
  match e.readlinkRes with
  | .ok _ => if e.mallocOk then none else some USBG_ERROR_NO_MEM
  | .error er => some (usbg_translate_error er)

/-- Status after the bindings loop: each failing entry overwrites the
accumulator, so the result is the last failure (or the start value). -/
def lastErrFrom (ret : Int) : List BEntry → Int
  | [] => ret
  | e :: rest => lastErrFrom ((bentryErr e).getD ret) rest

/-- Outcome of one configs-directory entry: the built config, or the first
error its construction hit. -/
def centryStep (g : usbg_gadget) (cpath : String) (e : CEntry) : Except Int usbg_config :=
  if e.mallocOk then
    let pr := usbg_parse_config_bindings g
      { name := e.d_name, path := cpath, bindings := [] } e.bindingsScan
    if pr.2 = USBG_SUCCESS then .ok pr.1 else .error pr.2
  else .error USBG_ERROR_NO_MEM

/-- Configs built by the guarded loop: the run of successful entries up to
(excluding) the first failing one; nothing after it is constructed. -/
def cfgBuilt (g : usbg_gadget) (cpath : String) : List CEntry → List usbg_config
  | [] => []
  | e :: rest =>
    match centryStep g cpath e with
    | .ok c => c :: cfgBuilt g cpath rest
    | .error _ => []

/-- Status of the guarded configs loop: the first failure, else success. -/
def cfgFirstErr (g : usbg_gadget) (cpath : String) : List CEntry → Int
  | [] => USBG_SUCCESS
  | e :: rest =>
    match centryStep g cpath e with
    | .ok _ => cfgFirstErr g cpath rest
    | .error x => x

/-- Outcome of one root-directory entry of the gadgets loop. -/
def gentryStep (path : String) (e : GEntry) : Except Int usbg_gadget :=
  if e.mallocOk then
    let pg := usbg_parse_gadget path e
    if pg.2 = USBG_SUCCESS then .ok pg.1 else .error pg.2
  else .error USBG_ERROR_NO_MEM

/-- Gadgets built by the guarded loop: the successful run before the first
failure. -/
def gBuilt (path : String) : List GEntry → List usbg_gadget
  | [] => []
  | e :: rest =>
    match gentryStep path e with
    | .ok g => g :: gBuilt path rest
    | .error _ => []

/-- Status of the guarded gadgets loop: the first failure, else success. -/
def gFirstErr (path : String) : List GEntry → Int
  | [] => USBG_SUCCESS
  | e :: rest =>
    match gentryStep path e with
    | .ok _ => gFirstErr path rest
    | .error x => x

/-- Reference decode of a successful string-field read: the first line of
the file's text, capped at `USBG_MAX_STR_LENGTH - 1` characters, newline not
included. -/
def firstLineSpec (content : String) : String :=
  String.mk ((content.data.takeWhile (fun c => c ≠ '\n')).take (USBG_MAX_STR_LENGTH - 1))

/-! ## Concrete fixtures used by witnesses and counterexamples -/

/-- A function node as created in gadget `g1`. -/
def fn0 : usbg_function :=
  { name := "acm.usb0", path := "cfs/usb_gadget/g1/functions", type := 1 }

/-- A config with no bindings. -/
def cfg0 : usbg_config :=
  { name := "c1", path := "cfs/usb_gadget/g1/configs", bindings := [] }

/-- A config holding exactly one binding, which targets function index 0. -/
def cfg1 : usbg_config :=
  { name := "c1", path := "cfs/usb_gadget/g1/configs",
    bindings := [{ name := "b1", path := "p", target := some 0 }] }

/-- An empty gadget. -/
def gad0 : usbg_gadget :=
  { name := "g1", path := "cfs/usb_gadget", udc := "", functions := [], configs := [] }

/-- A gadget that already owns `fn0` and `cfg0`. -/
def gad1 : usbg_gadget :=
  { gad0 with functions := [fn0], configs := [cfg0] }

/-- A state that already owns `gad0`. -/
def st1 : usbg_state :=
  { path := "cfs/usb_gadget", gadgets := [gad0] }

/-- A functions-directory entry named `ecm.usb0`. -/
def fe0 : FEntry := { d_name := "ecm.usb0", mallocOk := true }

/-- A configs-directory entry whose binding scan fails with `ENOENT`. -/
def ce_bad : CEntry := { d_name := "c1", mallocOk := true, bindingsScan := .error .enoent }

/-- A configs-directory entry that parses cleanly (no bindings). -/
def ce_good : CEntry := { d_name := "c2", mallocOk := true, bindingsScan := .ok [] }

/-- A symlink entry whose target's last segment names no function of
`gad1`. -/
def be_miss : BEntry :=
  { d_name := "b1", readlinkRes := .ok "../functions/ncm.usb9", mallocOk := true }

/-- A symlink entry whose `readlink` itself fails with `EIO`. -/
def be_err : BEntry :=
  { d_name := "b2", readlinkRes := .error .eioerr, mallocOk := true }

/-! ## Error-classification lemmas -/

theorem translate_ne_success (e : CErrno) : usbg_translate_error e ≠ USBG_SUCCESS := by
  cases e <;> decide

theorem translate_classified (e : CErrno) : isClassifiedError (usbg_translate_error e) := by
  cases e <;> decide

theorem classified_ne_success {r : Int} (h : isClassifiedError r) : r ≠ USBG_SUCCESS := by
  rcases h with h | h | h | h | h | h <;> (rw [h]; decide)

/-! ## Characterization of the bindings loop -/

theorem pcb_loop_eq (g : usbg_gadget) (bpath : String) :
    ∀ (es : List BEntry) (c : usbg_config) (ret : Int),
    usbg_parse_config_bindings_loop g bpath c ret es =
      ({ c with bindings := c.bindings ++ es.filterMap (bindingOf g bpath) },
        lastErrFrom ret es) := by
  intro es
  induction es with
  | nil =>
    intro c ret
    simp [usbg_parse_config_bindings_loop, lastErrFrom]
  | cons e rest ih =>
    intro c ret
    cases he : e.readlinkRes with
    | ok t =>
      by_cases hm : e.mallocOk
      · simp [usbg_parse_config_bindings_loop, he, hm, ih, bindingOf, bentryErr,
          lastErrFrom, List.append_assoc]
      · simp [usbg_parse_config_bindings_loop, he, hm, ih, bindingOf, bentryErr,
          lastErrFrom]
    | error er =>
      simp [usbg_parse_config_bindings_loop, he, ih, bindingOf, bentryErr, lastErrFrom]

theorem usbg_parse_config_bindings_ok (g : usbg_gadget) (c : usbg_config)
    (entries : List BEntry) :
    usbg_parse_config_bindings g c (.ok entries) =
      ({ c with bindings :=
          c.bindings ++ entries.filterMap (bindingOf g (c.path ++ "/" ++ c.name)) },
        lastErrFrom USBG_SUCCESS entries) := by
  simp [usbg_parse_config_bindings, pcb_loop_eq]

theorem bindingOf_configs_irrel (g : usbg_gadget) (xs : List usbg_config) :
    bindingOf { g with configs := xs } = bindingOf g := rfl

theorem pcb_configs_irrel (g : usbg_gadget) (xs : List usbg_config) (c : usbg_config)
    (scan : Except CErrno (List BEntry)) :
    usbg_parse_config_bindings { g with configs := xs } c scan =
      usbg_parse_config_bindings g c scan := by
  cases scan with
  | error e => rfl
  | ok entries =>
    rw [usbg_parse_config_bindings_ok, usbg_parse_config_bindings_ok,
      bindingOf_configs_irrel]

theorem bentryErr_classified (e : BEntry) (x : Int) (h : bentryErr e = some x) :
    isClassifiedError x := by
  unfold bentryErr at h
  cases he : e.readlinkRes with
  | ok t =>
    rw [he] at h
    by_cases hm : e.mallocOk
    · simp [hm] at h
    · simp [hm] at h
      rw [← h]
      decide
  | error er =>
    rw [he] at h
    have h' := Option.some.inj h
    subst h'
    exact translate_classified er

theorem lastErrFrom_all_ok :
    ∀ (es : List BEntry) (ret : Int), (∀ e ∈ es, bentryErr e = none) →
    lastErrFrom ret es = ret := by
  intro es
  induction es with
  | nil => intro ret _; rfl
  | cons e rest ih =>
    intro ret h
    have he := h e (by simp)
    simp only [lastErrFrom, he, Option.getD_none]
    exact ih ret (fun x hx => h x (by simp [hx]))

theorem lastErrFrom_classified_pres :
    ∀ (es : List BEntry) (ret : Int), isClassifiedError ret →
    isClassifiedError (lastErrFrom ret es) := by
  intro es
  induction es with
  | nil => intro ret h; exact h
  | cons e rest ih =>
    intro ret h
    simp only [lastErrFrom]
    cases hb : bentryErr e with
    | none => simpa using ih ret h
    | some x => simpa using ih x (bentryErr_classified e x hb)

theorem lastErrFrom_of_err :
    ∀ (es : List BEntry) (ret : Int),
    (∃ e ∈ es, ∃ er, e.readlinkRes = .error er) →
    isClassifiedError (lastErrFrom ret es) := by
  intro es
  induction es with
  | nil => intro ret h; simp at h
  | cons e rest ih =>
    intro ret h
    rcases h with ⟨w, hw, er, hwer⟩
    rcases List.mem_cons.mp hw with hEq | hmem
    · subst hEq
      simp only [lastErrFrom, bentryErr, hwer, Option.getD_some]
      exact lastErrFrom_classified_pres rest _ (translate_classified er)
    · simp only [lastErrFrom]
      exact ih _ ⟨w, hmem, er, hwer⟩

/-! ## Characterization of the guarded configs loop -/

theorem configs_loop_stuck (cpath : String) :
    ∀ (es : List CEntry) (g : usbg_gadget) (ret : Int), ret ≠ USBG_SUCCESS →
    usbg_parse_configs_loop cpath g ret es = (g, ret) := by
  intro es
  induction es with
  | nil => intro g ret _; rfl
  | cons e rest ih =>
    intro g ret h
    simp only [usbg_parse_configs_loop, if_neg h]
    exact ih g ret h

theorem centryStep_err_ne (g : usbg_gadget) (cpath : String) (e : CEntry) (x : Int)
    (h : centryStep g cpath e = .error x) : x ≠ USBG_SUCCESS := by
  unfold centryStep at h
  by_cases hm : e.mallocOk
  · rw [if_pos hm] at h
    by_cases hr :
        (usbg_parse_config_bindings g
          { name := e.d_name, path := cpath, bindings := [] } e.bindingsScan).2 =
          USBG_SUCCESS
    · simp only [hr, if_pos] at h
      exact absurd h (by simp)
    · simp only [if_neg hr] at h
      have h' := Except.error.inj h
      rw [← h']
      exact hr
  · rw [if_neg hm] at h
    have h' := Except.error.inj h
    rw [← h']
    decide

theorem centryStep_configs_irrel (g : usbg_gadget) (xs : List usbg_config)
    (cpath : String) (e : CEntry) :
    centryStep { g with configs := xs } cpath e = centryStep g cpath e := by
  simp only [centryStep, pcb_configs_irrel]

theorem cfgBuilt_configs_irrel (g : usbg_gadget) (xs : List usbg_config) (cpath : String) :
    ∀ es, cfgBuilt { g with configs := xs } cpath es = cfgBuilt g cpath es := by
  intro es
  induction es with
  | nil => rfl
  | cons e rest ih =>
    simp only [cfgBuilt, centryStep_configs_irrel]
    cases centryStep g cpath e with
    | ok c => simp [ih]
    | error x => simp

theorem cfgFirstErr_configs_irrel (g : usbg_gadget) (xs : List usbg_config) (cpath : String) :
    ∀ es, cfgFirstErr { g with configs := xs } cpath es = cfgFirstErr g cpath es := by
  intro es
  induction es with
  | nil => rfl
  | cons e rest ih =>
    simp only [cfgFirstErr, centryStep_configs_irrel]
    cases centryStep g cpath e with
    | ok c => simp [ih]
    | error x => simp

theorem configs_loop_eq (cpath : String) :
    ∀ (es : List CEntry) (g : usbg_gadget),
    usbg_parse_configs_loop cpath g USBG_SUCCESS es =
      ({ g with configs := g.configs ++ cfgBuilt g cpath es }, cfgFirstErr g cpath es) := by
  intro es
  induction es with
  | nil =>
    intro g
    simp [usbg_parse_configs_loop, cfgBuilt, cfgFirstErr]
  | cons e rest ih =>
    intro g
    by_cases hm : e.mallocOk
    · by_cases hr :
          (usbg_parse_config_bindings g
            { name := e.d_name, path := cpath, bindings := [] } e.bindingsScan).2 =
            USBG_SUCCESS
      · have hstep : centryStep g cpath e =
            .ok (usbg_parse_config_bindings g
              { name := e.d_name, path := cpath, bindings := [] } e.bindingsScan).1 := by
          simp [centryStep, hm, hr]
        simp only [usbg_parse_configs_loop, if_pos rfl, if_pos hm, hr]
        rw [ih]
        simp only [cfgBuilt, cfgFirstErr, hstep, cfgBuilt_configs_irrel,
          cfgFirstErr_configs_irrel, List.append_assoc, List.singleton_append]
        simp
      · have hstep : centryStep g cpath e =
            .error (usbg_parse_config_bindings g
              { name := e.d_name, path := cpath, bindings := [] } e.bindingsScan).2 := by
          simp [centryStep, hm, hr]
        simp only [usbg_parse_configs_loop, if_pos rfl, if_pos hm, if_neg hr]
        rw [configs_loop_stuck cpath rest g _ hr]
        simp [cfgBuilt, cfgFirstErr, hstep]
    · have hstep : centryStep g cpath e = .error USBG_ERROR_NO_MEM := by
        simp [centryStep, hm]
      simp only [usbg_parse_configs_loop, if_pos rfl, if_neg hm]
      rw [configs_loop_stuck cpath rest g USBG_ERROR_NO_MEM (by decide)]
      simp [cfgBuilt, cfgFirstErr, hstep]

theorem usbg_parse_configs_ok (g : usbg_gadget) (entries : List CEntry) :
    usbg_parse_configs g (.ok entries) =
      ({ g with configs := g.configs ++
          cfgBuilt g (g.path ++ "/" ++ g.name ++ "/" ++ CONFIGS_DIR) entries },
        cfgFirstErr g (g.path ++ "/" ++ g.name ++ "/" ++ CONFIGS_DIR) entries) := by
  simp [usbg_parse_configs, configs_loop_eq]

/-! ## Characterization of the guarded gadgets loop -/

theorem gadgets_loop_stuck (path : String) :
    ∀ (es : List GEntry) (s : usbg_state) (ret : Int), ret ≠ USBG_SUCCESS →
    usbg_parse_gadgets_loop path s ret es = (s, ret) := by
  intro es
  induction es with
  | nil => intro s ret _; rfl
  | cons e rest ih =>
    intro s ret h
    simp only [usbg_parse_gadgets_loop, if_neg h]
    exact ih s ret h

theorem gadgets_loop_eq (path : String) :
    ∀ (es : List GEntry) (s : usbg_state),
    usbg_parse_gadgets_loop path s USBG_SUCCESS es =
      ({ s with gadgets := s.gadgets ++ gBuilt path es }, gFirstErr path es) := by
  intro es
  induction es with
  | nil =>
    intro s
    simp [usbg_parse_gadgets_loop, gBuilt, gFirstErr]
  | cons e rest ih =>
    intro s
    by_cases hm : e.mallocOk
    · by_cases hr : (usbg_parse_gadget path e).2 = USBG_SUCCESS
      · have hstep : gentryStep path e = .ok (usbg_parse_gadget path e).1 := by
          simp [gentryStep, hm, hr]
        simp only [usbg_parse_gadgets_loop, if_pos rfl, if_pos hm, hr]
        rw [ih]
        simp [gBuilt, gFirstErr, hstep, List.append_assoc]
      · have hstep : gentryStep path e = .error (usbg_parse_gadget path e).2 := by
          simp [gentryStep, hm, hr]
        simp only [usbg_parse_gadgets_loop, if_pos rfl, if_pos hm, if_neg hr]
        rw [gadgets_loop_stuck path rest s _ hr]
        simp [gBuilt, gFirstErr, hstep]
    · have hstep : gentryStep path e = .error USBG_ERROR_NO_MEM := by
        simp [gentryStep, hm]
      simp only [usbg_parse_gadgets_loop, if_pos rfl, if_neg hm]
      rw [gadgets_loop_stuck path rest s USBG_ERROR_NO_MEM (by decide)]
      simp [gBuilt, gFirstErr, hstep]

theorem usbg_parse_gadgets_ok (s : usbg_state) (entries : List GEntry) :
    usbg_parse_gadgets s (.ok entries) =
      ({ s with gadgets := s.gadgets ++ gBuilt s.path entries }, gFirstErr s.path entries) := by
  simp [usbg_parse_gadgets, gadgets_loop_eq]

/-! ## Characterization of the functions loop on the all-success path -/

theorem functions_loop_ok (fpath : String) :
    ∀ (es : List FEntry) (g : usbg_gadget), (∀ e ∈ es, e.mallocOk) →
    usbg_parse_functions_loop fpath g USBG_SUCCESS es =
      ({ g with functions := g.functions ++ es.map (fun e =>
          { name := e.d_name, path := fpath,
            type := usbg_lookup_function_type (strtok_first e.d_name) }) },
        USBG_SUCCESS) := by
  intro es
  induction es with
  | nil => intro g _; simp [usbg_parse_functions_loop]
  | cons e rest ih =>
    intro g h
    have he : e.mallocOk := h e (by simp)
    simp only [usbg_parse_functions_loop, if_pos rfl, if_pos he]
    rw [ih _ (fun x hx => h x (by simp [hx]))]
    simp [List.append_assoc]

/-! ## String-field read lemmas -/

theorem dropFromNL_takeLineL :
    ∀ (cs : List Char) (n : Nat),
    dropFromNL (takeLineL n cs) = (cs.takeWhile (fun c => c ≠ '\n')).take n := by
  intro cs
  induction cs with
  | nil => intro n; simp [takeLineL, dropFromNL]
  | cons c rest ih =>
    intro n
    cases n with
    | zero => simp [takeLineL, dropFromNL]
    | succ m =>
      by_cases hc : c = '\n'
      · simp [takeLineL, dropFromNL, hc]
      · simp [takeLineL, dropFromNL, hc, ih]

theorem usbg_read_string_ok (content : String) (h : content ≠ "") :
    usbg_read_string (.ok content) = (USBG_SUCCESS, firstLineSpec content) := by
  have hne : content.isEmpty = false := by
    cases hemp : content.isEmpty
    · rfl
    · exact absurd ((String.isEmpty_iff content).mp hemp) h
  simp [usbg_read_string, usbg_read_buf, fgets_model, hne, firstLineSpec,
    dropFromNL_takeLineL]

theorem usbg_read_string_err (e : CErrno) :
    usbg_read_string (.error e) = (usbg_translate_error e, "") := by
  simp [usbg_read_string, usbg_read_buf, translate_ne_success e]

/-! ## Claims -/

/-- Claim C1 (evidence of the code bug): the three-way placement rule is not
what the code implements.  `INSERT_TAILQ_STRING_ORDER`'s foreach branch has
no `break`, so after inserting before the first element that does not sort
before the new name it keeps re-inserting before every later element,
unlinking the elements in between.  Creating functions `acm.a`, `acm.c`,
`acm.d`, then `acm.b` in one gadget leaves the collection as
`[acm.a, acm.b, acm.d]`: node `acm.c` is lost, and `acm.b` did not stay
immediately before the first non-smaller element, contradicting the claimed
incremental order-preserving insert. -/
theorem claim_C1_eval :
    (let g4 := (usbg_create_function
        (usbg_create_function
          (usbg_create_function
            (usbg_create_function (some gad0) 1 "a" false {}).coll
            1 "c" false {}).coll
          1 "d" false {}).coll
        1 "b" false {}).coll
     g4.map (fun g => g.functions.map (fun f => f.name)) =
        some ["acm.a", "acm.b", "acm.d"] ∧
      g4.map (fun g => g.functions.map (fun f => f.name)) ≠
        some ["acm.a", "acm.b", "acm.c", "acm.d"]) := by
  decide

/-- Claim C2: rejecting a duplicate binding (same target function, or same
name) makes `usbg_add_config_function` fail with `-1`, attempt no filesystem
mutation, and leave the config's binding collection unchanged; in particular
a config holding exactly one binding for the function still holds exactly
one afterwards. -/
theorem claim_C2 (c : usbg_config) (name : String) (fp : Nat × usbg_function)
    (env : MutEnv)
    (hdup : (usbg_get_link_binding c fp.1).isSome ∨ (usbg_get_binding c name).isSome) :
    usbg_add_config_function (some c) name (some fp) env =
      { res := -1, coll := some c, fsOps := [], allocs := 0, frees := 0 } ∧
    ((c.bindings.filter (fun b => b.target = some fp.1)).length = 1 →
      ∃ c', (usbg_add_config_function (some c) name (some fp) env).coll = some c' ∧
        (c'.bindings.filter (fun b => b.target = some fp.1)).length = 1) := by
  have key : usbg_add_config_function (some c) name (some fp) env =
      { res := -1, coll := some c, fsOps := [], allocs := 0, frees := 0 } := by
    unfold usbg_add_config_function
    by_cases hb : (usbg_get_binding c name).isSome
    · simp [hb]
    · rcases hdup with h | h
      · simp [hb, h]
      · exact absurd h hb
  refine ⟨key, fun h1 => ⟨c, by rw [key], h1⟩⟩

/-- Witness for C2 at a concrete input: `cfg1` already holds binding `b1`
targeting function 0, and adding a second binding `b2` to the same function
is rejected before any filesystem work. -/
theorem claim_C2_witness :
    ((usbg_get_link_binding cfg1 0).isSome ∨ (usbg_get_binding cfg1 "b2").isSome) ∧
    (usbg_add_config_function (some cfg1) "b2" (some (0, fn0)) {} =
      { res := -1, coll := some cfg1, fsOps := [], allocs := 0, frees := 0 } ∧
     ((cfg1.bindings.filter (fun b => b.target = some (0, fn0).1)).length = 1 →
       ∃ c', (usbg_add_config_function (some cfg1) "b2" (some (0, fn0)) {}).coll = some c' ∧
         (c'.bindings.filter (fun b => b.target = some (0, fn0).1)).length = 1)) :=
  ⟨by decide, claim_C2 cfg1 "b2" (0, fn0) {} (by decide)⟩

/-- Claim C3: each creation operation rejects a duplicate name in its scope
(for functions, the synthesized `"<type-name>.<instance>"` name) with a
null/failure result, an empty filesystem trace, no allocation, and an
unchanged owning collection. -/
theorem claim_C3 :
    (∀ (s : usbg_state) (name : String) (ha hs : Bool) (env : MutEnv),
      (usbg_get_gadget s name).isSome →
      usbg_create_gadget (some s) name ha hs env =
        { res := none, coll := some s, fsOps := [], allocs := 0, frees := 0 }) ∧
    (∀ (g : usbg_gadget) (type : Nat) (inst : String) (ha : Bool) (env : MutEnv),
      (usbg_get_function g (function_names.getD type "" ++ "." ++ inst)).isSome →
      usbg_create_function (some g) type inst ha env =
        { res := none, coll := some g, fsOps := [], allocs := 0, frees := 0 }) ∧
    (∀ (g : usbg_gadget) (name : String) (ha hs : Bool) (env : MutEnv),
      (usbg_get_config g name).isSome →
      usbg_create_config (some g) name ha hs env =
        { res := none, coll := some g, fsOps := [], allocs := 0, frees := 0 }) ∧
    (∀ (c : usbg_config) (name : String) (fp : Nat × usbg_function) (env : MutEnv),
      (usbg_get_binding c name).isSome →
      usbg_add_config_function (some c) name (some fp) env =
        { res := -1, coll := some c, fsOps := [], allocs := 0, frees := 0 }) := by
  refine ⟨?_, ?_, ?_, ?_⟩
  · intro s name ha hs env h
    simp [usbg_create_gadget, h]
  · intro g type inst ha env h
    simp only [usbg_create_function, h, if_true]
  · intro g name ha hs env h
    simp [usbg_create_config, h]
  · intro c name fp env h
    simp [usbg_add_config_function, h]

/-- Witness for C3 at concrete inputs: state `st1` already holds gadget
`g1`; gadget `gad1` already holds function `acm.usb0` and config `c1`;
config `cfg1` already holds binding `b1`. -/
theorem claim_C3_witness :
    ((usbg_get_gadget st1 "g1").isSome ∧
     (usbg_get_function gad1 (function_names.getD 1 "" ++ "." ++ "usb0")).isSome ∧
     (usbg_get_config gad1 "c1").isSome ∧
     (usbg_get_binding cfg1 "b1").isSome) ∧
    (usbg_create_gadget (some st1) "g1" false false {} =
      { res := none, coll := some st1, fsOps := [], allocs := 0, frees := 0 } ∧
     usbg_create_function (some gad1) 1 "usb0" false {} =
      { res := none, coll := some gad1, fsOps := [], allocs := 0, frees := 0 } ∧
     usbg_create_config (some gad1) "c1" false false {} =
      { res := none, coll := some gad1, fsOps := [], allocs := 0, frees := 0 } ∧
     usbg_add_config_function (some cfg1) "b1" (some (0, fn0)) {} =
      { res := -1, coll := some cfg1, fsOps := [], allocs := 0, frees := 0 }) :=
  ⟨⟨by decide, by decide, by decide, by decide⟩,
   claim_C3.1 st1 "g1" false false {} (by decide),
   claim_C3.2.1 gad1 1 "usb0" false {} (by decide),
   claim_C3.2.2.1 gad1 "c1" false false {} (by decide),
   claim_C3.2.2.2 cfg1 "b1" (0, fn0) {} (by decide)⟩

/-- Claim C4 (evidence of the code bug): on filesystem failure the gadget,
function and config creations free the node they allocated
(`allocs = 1, frees = 1`), but `usbg_add_config_function` returns from its
`symlink` failure branch without `free(b)` (usbg.c:1246-1250), leaving an
allocated in-memory node whose backing artifact does not exist
(`allocs = 1, frees = 0`).  No failing operation inserts into its owning
collection. -/
theorem claim_C4_eval :
    ((usbg_add_config_function (some cfg0) "b1" (some (0, fn0)) { symlinkOk := false }).res = -1 ∧
     (usbg_add_config_function (some cfg0) "b1" (some (0, fn0)) { symlinkOk := false }).allocs = 1 ∧
     (usbg_add_config_function (some cfg0) "b1" (some (0, fn0)) { symlinkOk := false }).frees = 0 ∧
     (usbg_add_config_function (some cfg0) "b1" (some (0, fn0)) { symlinkOk := false }).coll = some cfg0) ∧
    ((usbg_create_function (some gad0) 1 "usb0" false { mkdirOk := false }).res = none ∧
     (usbg_create_function (some gad0) 1 "usb0" false { mkdirOk := false }).allocs = 1 ∧
     (usbg_create_function (some gad0) 1 "usb0" false { mkdirOk := false }).frees = 1 ∧
     (usbg_create_function (some gad0) 1 "usb0" false { mkdirOk := false }).coll = some gad0) ∧
    ((usbg_create_config (some gad0) "c1" false false { mkdirOk := false }).res = none ∧
     (usbg_create_config (some gad0) "c1" false false { mkdirOk := false }).allocs = 1 ∧
     (usbg_create_config (some gad0) "c1" false false { mkdirOk := false }).frees = 1 ∧
     (usbg_create_config (some gad0) "c1" false false { mkdirOk := false }).coll = some gad0) ∧
    ((usbg_create_gadget (some st1) "g2" false false { mkdirOk := false }).res = none ∧
     (usbg_create_gadget (some st1) "g2" false false { mkdirOk := false }).allocs = 1 ∧
     (usbg_create_gadget (some st1) "g2" false false { mkdirOk := false }).frees = 1 ∧
     (usbg_create_gadget (some st1) "g2" false false { mkdirOk := false }).coll = some st1) := by
  decide

/-- Claim C5: during a binding scan in which every `readlink` succeeds and
every allocation succeeds, an entry whose resolved target's last segment
names no function of the owning gadget yields a binding with an unresolved
(`none`) target that is still inserted, and the scan's status stays
`USBG_SUCCESS`; whereas if any entry's `readlink` itself fails, the returned
status is a classified error. -/
theorem claim_C5 :
    (∀ (g : usbg_gadget) (c : usbg_config) (entries : List BEntry),
      (∀ e ∈ entries, e.mallocOk ∧ ∃ t, e.readlinkRes = .ok t) →
      ((usbg_parse_config_bindings g c (.ok entries)).2 = USBG_SUCCESS ∧
       ∀ e ∈ entries, ∀ t, e.readlinkRes = .ok t →
         usbg_get_function g (afterLastSlash t) = none →
         ({ name := e.d_name, path := c.path ++ "/" ++ c.name, target := none } : usbg_binding) ∈
           (usbg_parse_config_bindings g c (.ok entries)).1.bindings)) ∧
    (∀ (g : usbg_gadget) (c : usbg_config) (entries : List BEntry),
      (∃ e ∈ entries, ∃ er, e.readlinkRes = .error er) →
      ((usbg_parse_config_bindings g c (.ok entries)).2 ≠ USBG_SUCCESS ∧
       isClassifiedError (usbg_parse_config_bindings g c (.ok entries)).2)) := by
  constructor
  · intro g c entries h
    rw [usbg_parse_config_bindings_ok]
    constructor
    · apply lastErrFrom_all_ok
      intro e he
      rcases h e he with ⟨hm, t, ht⟩
      simp [bentryErr, ht, hm]
    · intro e he t ht hmiss
      refine List.mem_append.mpr (Or.inr ?_)
      refine List.mem_filterMap.mpr ⟨e, he, ?_⟩
      rcases h e he with ⟨hm, _⟩
      simp [bindingOf, ht, hm, hmiss]
  · intro g c entries h
    rw [usbg_parse_config_bindings_ok]
    have hcl := lastErrFrom_of_err entries USBG_SUCCESS h
    exact ⟨classified_ne_success hcl, hcl⟩

/-- Witness for C5 at concrete inputs: a link to `ncm.usb9` (no such
function in `gad1`) yields an unresolved binding with success status, and a
failing `readlink` yields a classified error. -/
theorem claim_C5_witness :
    ((∀ e ∈ [be_miss], e.mallocOk ∧ ∃ t, e.readlinkRes = .ok t) ∧
     ((usbg_parse_config_bindings gad1 cfg0 (.ok [be_miss])).2 = USBG_SUCCESS ∧
      ∀ e ∈ [be_miss], ∀ t, e.readlinkRes = .ok t →
        usbg_get_function gad1 (afterLastSlash t) = none →
        ({ name := e.d_name, path := cfg0.path ++ "/" ++ cfg0.name, target := none } : usbg_binding) ∈
          (usbg_parse_config_bindings gad1 cfg0 (.ok [be_miss])).1.bindings)) ∧
    ((∃ e ∈ [be_err], ∃ er, e.readlinkRes = .error er) ∧
     ((usbg_parse_config_bindings gad1 cfg0 (.ok [be_err])).2 ≠ USBG_SUCCESS ∧
      isClassifiedError (usbg_parse_config_bindings gad1 cfg0 (.ok [be_err])).2)) :=
  ⟨⟨fun e he => by
      rw [List.mem_singleton.mp he]
      exact ⟨rfl, "../functions/ncm.usb9", rfl⟩,
    claim_C5.1 gad1 cfg0 [be_miss] (fun e he => by
      rw [List.mem_singleton.mp he]
      exact ⟨rfl, "../functions/ncm.usb9", rfl⟩)⟩,
   ⟨⟨be_err, by simp, .eioerr, rfl⟩,
    claim_C5.2 gad1 cfg0 [be_err] ⟨be_err, by simp, .eioerr, rfl⟩⟩⟩

/-- Claim C6 (counterexample): with two configs-directory entries of which
the first fails (its binding scan dies with `ENOENT`) and the second would
parse cleanly, `usbg_parse_configs` builds nothing at all — the second
sibling is never constructed — refuting "construction of later siblings from
the already-fetched enumeration list still proceeds".  The third conjunct
checks the second entry on its own does construct a config. -/
theorem claim_C6_counterexample :
    (usbg_parse_configs gad0 (.ok [ce_bad, ce_good])).1.configs = [] ∧
    (usbg_parse_configs gad0 (.ok [ce_bad, ce_good])).2 = USBG_ERROR_NOT_FOUND ∧
    centryStep gad0 (gad0.path ++ "/" ++ gad0.name ++ "/" ++ CONFIGS_DIR) ce_good =
      .ok { name := "c2", path := gad0.path ++ "/" ++ gad0.name ++ "/" ++ CONFIGS_DIR,
            bindings := [] } := by
  decide

/-- Claim C6 (amended): already-built-and-inserted siblings are retained on
a later failure, but the guarded loops (configs, gadgets — functions behaves
alike) stop constructing after the first failure and return that first
failure (`cfgBuilt`/`gBuilt` are the successful run before the first failing
entry, `cfgFirstErr`/`gFirstErr` the first failure); the bindings loop alone
keeps constructing later siblings after a failure and returns the last
failure (`lastErrFrom`). -/
theorem claim_C6_amended :
    (∀ (g : usbg_gadget) (entries : List CEntry),
      usbg_parse_configs g (.ok entries) =
        ({ g with configs := g.configs ++
            cfgBuilt g (g.path ++ "/" ++ g.name ++ "/" ++ CONFIGS_DIR) entries },
          cfgFirstErr g (g.path ++ "/" ++ g.name ++ "/" ++ CONFIGS_DIR) entries)) ∧
    (∀ (s : usbg_state) (entries : List GEntry),
      usbg_parse_gadgets s (.ok entries) =
        ({ s with gadgets := s.gadgets ++ gBuilt s.path entries },
          gFirstErr s.path entries)) ∧
    (∀ (g : usbg_gadget) (c : usbg_config) (entries : List BEntry),
      usbg_parse_config_bindings g c (.ok entries) =
        ({ c with bindings := c.bindings ++
            entries.filterMap (bindingOf g (c.path ++ "/" ++ c.name)) },
          lastErrFrom USBG_SUCCESS entries)) :=
  ⟨usbg_parse_configs_ok, usbg_parse_gadgets_ok, usbg_parse_config_bindings_ok⟩

/-- Claim C7 (counterexample): enabling with an explicit controller name
produces the in-memory UDC store as the FIRST observable effect, before the
write of the backing UDC file — refuting "updated only after the write,
never before". -/
theorem claim_C7_counterexample :
    (usbg_enable_gadget gad0 (some "udc0") []).2 =
      [GEvent.memUdcSet "udc0", GEvent.fsUdcWrite "udc0"] ∧
    (usbg_enable_gadget gad0 (some "udc0") []).2.head? =
      some (GEvent.memUdcSet "udc0") :=
  ⟨rfl, rfl⟩

/-- Claim C7 (amended): in both `usbg_enable_gadget` and
`usbg_disable_gadget` the in-memory UDC field is updated immediately BEFORE
(and to mirror) the write of the backing UDC file: both effects always occur
together, carry the same value, and the memory store comes first; with no
explicit controller and an empty enumeration nothing happens. -/
theorem claim_C7_amended :
    (∀ (g : usbg_gadget) (u : String) (udcs : List String),
      usbg_enable_gadget g (some u) udcs =
        ({ g with udc := u }, [GEvent.memUdcSet u, GEvent.fsUdcWrite u])) ∧
    (∀ (g : usbg_gadget) (u : String) (rest : List String),
      usbg_enable_gadget g none (u :: rest) =
        ({ g with udc := u }, [GEvent.memUdcSet u, GEvent.fsUdcWrite u])) ∧
    (∀ g : usbg_gadget, usbg_enable_gadget g none [] = (g, [])) ∧
    (∀ g : usbg_gadget, usbg_disable_gadget g =
      ({ g with udc := "" }, [GEvent.memUdcSet "", GEvent.fsUdcWrite ""])) :=
  ⟨fun _ _ _ => rfl, fun _ _ _ => rfl, fun _ => rfl, fun _ => rfl⟩

/-- Claim C8 (counterexample): for the two-line file text `"a\nb"` the
decoded value is `"a"` — the first line — not the whole text (which has no
trailing newline and should, per the claim, decode to `"a\nb"`). -/
theorem claim_C8_counterexample :
    usbg_read_string (.ok "a\nb") = (USBG_SUCCESS, "a") ∧ ("a" : String) ≠ "a\nb" := by
  constructor
  · decide
  · decide

/-- Claim C8 (amended): on success the decoded value is the FIRST LINE of
the file's text (capped at `USBG_MAX_STR_LENGTH - 1` characters by `fgets`),
with the newline not included; on `fopen` failure the destination is the
empty string and the errno's classified code is returned; an empty file is
an `fgets` failure yielding the I/O error and the empty string. -/
theorem claim_C8_amended :
    (∀ content : String, content ≠ "" →
      usbg_read_string (.ok content) = (USBG_SUCCESS, firstLineSpec content)) ∧
    (∀ e : CErrno, usbg_read_string (.error e) = (usbg_translate_error e, "") ∧
      isClassifiedError (usbg_translate_error e)) ∧
    usbg_read_string (.ok "") = (USBG_ERROR_IOERR, "") :=
  ⟨fun content h => usbg_read_string_ok content h,
   fun e => ⟨usbg_read_string_err e, translate_classified e⟩,
   by decide⟩

/-- Witness for C8 at a concrete input. -/
theorem claim_C8_witness :
    ("a\nb" : String) ≠ "" ∧
    usbg_read_string (.ok "a\nb") = (USBG_SUCCESS, firstLineSpec "a\nb") :=
  ⟨by decide, claim_C8_amended.1 "a\nb" (by decide)⟩

/-- Claim C9: when every allocation succeeds, a loaded function stores the
full entry name (the copy happens before `strtok` splits the scratch entry
name for the type lookup) and the dot-split first segment only feeds the
type; concretely, loading entry `ecm.usb0` yields a function named
`ecm.usb0` of type 3 (`ecm`), found by `usbg_get_function` under the full
name and not under `ecm`. -/
theorem claim_C9 :
    (∀ (g : usbg_gadget) (entries : List FEntry), (∀ e ∈ entries, e.mallocOk) →
      usbg_parse_functions g (.ok entries) =
        ({ g with functions := g.functions ++ entries.map (fun e =>
            { name := e.d_name, path := g.path ++ "/" ++ g.name ++ "/" ++ FUNCTIONS_DIR,
              type := usbg_lookup_function_type (strtok_first e.d_name) }) },
          USBG_SUCCESS)) ∧
    ((usbg_parse_functions gad0 (.ok [fe0])).1.functions.map (fun f => f.name) =
        ["ecm.usb0"] ∧
     (usbg_parse_functions gad0 (.ok [fe0])).1.functions.map (fun f => f.type) = [3] ∧
     usbg_get_function (usbg_parse_functions gad0 (.ok [fe0])).1 "ecm.usb0" = some 0 ∧
     usbg_get_function (usbg_parse_functions gad0 (.ok [fe0])).1 "ecm" = none) := by
  constructor
  · intro g entries h
    simp only [usbg_parse_functions]
    exact functions_loop_ok _ entries g h
  · decide

/-- Witness for C9 at a concrete input. -/
theorem claim_C9_witness :
    (∀ e ∈ [fe0], e.mallocOk) ∧
    usbg_parse_functions gad0 (.ok [fe0]) =
      ({ gad0 with functions := gad0.functions ++ [fe0].map (fun e =>
          { name := e.d_name, path := gad0.path ++ "/" ++ gad0.name ++ "/" ++ FUNCTIONS_DIR,
            type := usbg_lookup_function_type (strtok_first e.d_name) }) },
        USBG_SUCCESS) :=
  ⟨by decide, claim_C9.1 gad0 [fe0] (by decide)⟩

/-- Claim C10: every name-length accessor called on a `NULL` handle returns
`USBG_ERROR_INVALID_PARAM` converted to the unsigned 64-bit `size_t`,
i.e. the huge positive value `2^64 - 3`, not a negative error. -/
theorem claim_C10 :
    usbg_get_gadget_name_len none = size_t_of_int USBG_ERROR_INVALID_PARAM ∧
    usbg_get_gadget_udc_len none = size_t_of_int USBG_ERROR_INVALID_PARAM ∧
    usbg_get_configfs_path_len none = size_t_of_int USBG_ERROR_INVALID_PARAM ∧
    usbg_get_config_name_len none = size_t_of_int USBG_ERROR_INVALID_PARAM ∧
    usbg_get_function_name_len none = size_t_of_int USBG_ERROR_INVALID_PARAM ∧
    usbg_get_binding_name_len none = size_t_of_int USBG_ERROR_INVALID_PARAM ∧
    size_t_of_int USBG_ERROR_INVALID_PARAM = 18446744073709551613 ∧
    2 ^ 63 < size_t_of_int USBG_ERROR_INVALID_PARAM := by
  refine ⟨rfl, rfl, rfl, rfl, rfl, rfl, ?_, ?_⟩
  · decide
  · decide

end Usbg
